import Mathlib

/-!
Shallow embedding of `src/messaging/mod.rs` from the sn_data_types repository:
the message envelope and addressing layer (MsgEnvelope, Message, Address,
MsgSender, QueryResponse, typed extraction, debug rendering), together with
theorems settling the specification claims about it.

Types defined in modules of the repository that are not part of the provided
source (cmd.rs, query.rs, duty.rs, network.rs, transfer.rs, errors.rs and the
crate-level data types) are modelled from the specification, each marked with
a doc comment starting `Modelled from the spec:`.
-/

namespace SnMessaging

/-- Network identifier. In the source `XorName` is an opaque fixed-width
random identifier; modelled as `Nat`. -/
abbrev XorName := Nat

/-- Unique ID for messages. Source: `pub struct MessageId(pub XorName)`. -/
structure MessageId where
  name : XorName
deriving DecidableEq, Repr

/-- A routable destination, tagged by actor class.
Source: `enum Address { Client(XorName), Node(XorName), Section(XorName) }`. -/
inductive Address where
  | Client (x : XorName)
  | Node (x : XorName)
  | Section (x : XorName)
deriving DecidableEq, Repr

/-- Extracts the underlying XorName. Source: `Address::xorname`. -/
def Address.xorname : Address → XorName
  | .Client x => x
  | .Node x => x
  | .Section x => x

/-- Modelled from the spec: `PublicKey` is defined at the crate root (not in
the provided source); it is an opaque identity key convertible into an
`XorName` (the source writes `(*id).into()`). -/
structure PublicKey where
  key : Nat
deriving DecidableEq, Repr

/-- Modelled from the spec: the `.into()` conversion from `PublicKey` to
`XorName` supplied by the crate root. -/
def PublicKey.toXorName (p : PublicKey) : XorName := p.key

/-- Modelled from the spec: `Signature` is supplied by the signature
collaborator and carried opaquely by this layer. -/
structure Signature where
  sig : Nat
deriving DecidableEq, Repr

/-- Modelled from the spec: `Duty` (duty.rs is not in the provided source) is
an enumerated role tag of a Node/Section sender, e.g. Adult vs Elder. -/
inductive Duty where
  | Adult
  | Elder
deriving DecidableEq, Repr

/-- Authenticated originator of a hop.
Source: `enum MsgSender { Client {..}, Node {..}, Section {..} }`. -/
inductive MsgSender where
  | Client (id : PublicKey) (signature : Signature)
  | Node (id : PublicKey) (duty : Duty) (signature : Signature)
  | Section (id : PublicKey) (duty : Duty) (signature : Signature)
deriving DecidableEq, Repr

/-- Source: `MsgSender::address`, the sender's key converted to an XorName. -/
def MsgSender.address : MsgSender → XorName
  | .Client id _ => id.toXorName
  | .Node id _ _ => id.toXorName
  | .Section id _ _ => id.toXorName

/-- Modelled from the spec: `Cmd` (cmd.rs is not in the provided source).
Only its target-resolution interface matters to this layer: the
target-resolution collaborator supplies `dst_address()` returning the
section name the cmd targets. -/
structure Cmd where
  dst : XorName
deriving DecidableEq, Repr

/-- Modelled from the spec: the cmd's own target-resolution rule. -/
def Cmd.dst_address (c : Cmd) : XorName := c.dst

/-- Modelled from the spec: `Query` (query.rs is not in the provided source);
like `Cmd`, only its target-resolution rule is visible to this layer. -/
structure Query where
  dst : XorName
deriving DecidableEq, Repr

/-- Modelled from the spec: the query's own target-resolution rule. -/
def Query.dst_address (q : Query) : XorName := q.dst

/-- Modelled from the spec: `NetworkCmd` (network.rs is not in the provided
source); its target-resolution rule returns a full `Address` (the
`destination()` dispatch uses it without re-tagging). -/
structure NetworkCmd where
  dst : Address
deriving DecidableEq, Repr

/-- Modelled from the spec: the network-cmd's own target-resolution rule. -/
def NetworkCmd.dst_address (c : NetworkCmd) : Address := c.dst

/-- Modelled from the spec: `NetworkEvent` (network.rs is not in the provided
source); its target-resolution rule returns a full `Address`. -/
structure NetworkEvent where
  dst : Address
deriving DecidableEq, Repr

/-- Modelled from the spec: the network-event's own target-resolution rule. -/
def NetworkEvent.dst_address (e : NetworkEvent) : Address := e.dst

/-- Modelled from the spec: `NetworkCmdError` (network.rs is not in the
provided source); opaque error payload of a NetworkCmd. -/
structure NetworkCmdError where
  code : Nat
deriving DecidableEq, Repr

/-- Modelled from the spec: `Error` (errors.rs is not in the provided source).
The spec pins only the `AccessDenied` tag; all other error-payload internals
are out of scope, modelled by an opaque second variant. -/
inductive Error where
  | AccessDenied
  | Other (code : Nat)
deriving DecidableEq, Repr

/-- Result alias of the source crate: `Result<T>` is `Result<T, Error>`. -/
abbrev Result (T : Type) := Except Error T

/-- Modelled from the spec: `TransferValidated` (transfer.rs is not in the
provided source); the source only reads `e.from()`, the key of the paying
account, converted to an XorName. -/
structure TransferValidated where
  fromKey : PublicKey
deriving DecidableEq, Repr

/-- Modelled from the spec: accessor used as `e.from()` in the source. -/
def TransferValidated.fromAccount (t : TransferValidated) : PublicKey := t.fromKey

/-- Modelled from the spec: `DebitAgreementProof` is produced by the
consensus collaborator; the source only reads `req.from()`. -/
structure DebitAgreementProof where
  fromKey : PublicKey
deriving DecidableEq, Repr

/-- Modelled from the spec: accessor used as `req.from()` in the source. -/
def DebitAgreementProof.fromAccount (d : DebitAgreementProof) : PublicKey := d.fromKey

/-- Events from the network that are pushed to the client.
Source: `enum Event { TransferValidated(..), TransferDebitAgreementReached(..) }`. -/
inductive Event where
  | TransferValidated (e : TransferValidated)
  | TransferDebitAgreementReached (req : DebitAgreementProof)
deriving DecidableEq, Repr

/-- Source: `Event::dst_address`, matching
`TransferValidated(e) => e.from().into()` and
`TransferDebitAgreementReached(req) => req.from().into()`. -/
def Event.dst_address : Event → XorName
  | .TransferValidated e => e.fromAccount.toXorName
  | .TransferDebitAgreementReached req => req.fromAccount.toXorName

/-- Structured failure taxonomy for a transfer Cmd.
Source: `enum TransferError`. -/
inductive TransferError where
  | TransferValidation (e : Error)
  | TransferRegistration (e : Error)
  | TransferPropagation (e : Error)
deriving DecidableEq, Repr

/-- Structured failure taxonomy for a Cmd. Source: `enum CmdError`. -/
inductive CmdError where
  | Auth (e : Error)
  | Data (e : Error)
  | Transfer (e : TransferError)
deriving DecidableEq, Repr

/-- Modelled from the spec: `IData` (blob data type at the crate root);
opaque success payload. -/
structure IData where
  val : Nat
deriving DecidableEq, Repr

/-- Modelled from the spec: `Map` (`MData` at the crate root); opaque
success payload. -/
structure Map where
  val : Nat
deriving DecidableEq, Repr

/-- Modelled from the spec: `MapEntries` (`MDataEntries` at the crate root);
opaque success payload. -/
structure MapEntries where
  val : Nat
deriving DecidableEq, Repr

/-- Modelled from the spec: `MapValue` (`MDataValue` at the crate root). -/
structure MapValue where
  val : Nat
deriving DecidableEq, Repr

/-- Modelled from the spec: `MapValues` (`MDataValues` at the crate root). -/
structure MapValues where
  val : Nat
deriving DecidableEq, Repr

/-- Modelled from the spec: `MapPermissionSet` (`MDataPermissionSet`). -/
structure MapPermissionSet where
  val : Nat
deriving DecidableEq, Repr

/-- Modelled from the spec: `Sequence` (`SData` at the crate root). -/
structure Sequence where
  val : Nat
deriving DecidableEq, Repr

/-- Modelled from the spec: `SequenceOwner` (`SDataOwner`). -/
structure SequenceOwner where
  val : Nat
deriving DecidableEq, Repr

/-- Modelled from the spec: `SequenceEntry` (`SDataEntry`). -/
structure SequenceEntry where
  val : Nat
deriving DecidableEq, Repr

/-- Modelled from the spec: `SequenceEntries` (`SDataEntries`). -/
structure SequenceEntries where
  val : Nat
deriving DecidableEq, Repr

/-- Modelled from the spec: `SequencePermissions` (`SDataPermissions`). -/
structure SequencePermissions where
  val : Nat
deriving DecidableEq, Repr

/-- Modelled from the spec: `SequenceUserPermissions` (`SDataUserPermissions`). -/
structure SequenceUserPermissions where
  val : Nat
deriving DecidableEq, Repr

/-- Modelled from the spec: `ReplicaPublicKeySet`. -/
structure ReplicaPublicKeySet where
  val : Nat
deriving DecidableEq, Repr

/-- Modelled from the spec: `Money`, the balance payload type. -/
structure Money where
  val : Nat
deriving DecidableEq, Repr

/-- Modelled from the spec: `ReplicaEvent`. -/
structure ReplicaEvent where
  val : Nat
deriving DecidableEq, Repr

/-- Modelled from the spec: `AppPermissions`. -/
structure AppPermissions where
  val : Nat
deriving DecidableEq, Repr

deriving instance DecidableEq for Except

/-- Query responses from the network: one variant per queryable resource,
each wrapping a `Result` of its payload type. Source: `enum QueryResponse`.
Std collections are modelled as lists: `BTreeSet<Vec<u8>>` as
`List (List Nat)`, `BTreeMap<K, V>` as `List (K × V)`, `Vec<T>` as `List T`. -/
inductive QueryResponse where
  | GetBlob (res : Result IData)
  | GetMap (res : Result Map)
  | GetMapShell (res : Result Map)
  | GetMapVersion (res : Result Nat)
  | ListMapEntries (res : Result MapEntries)
  | ListMapKeys (res : Result (List (List Nat)))
  | ListMapValues (res : Result MapValues)
  | ListMapUserPermissions (res : Result MapPermissionSet)
  | ListMapPermissions (res : Result (List (PublicKey × MapPermissionSet)))
  | GetMapValue (res : Result MapValue)
  | GetSequence (res : Result Sequence)
  | GetSequenceOwner (res : Result SequenceOwner)
  | GetSequenceRange (res : Result SequenceEntries)
  | GetSequenceLastEntry (res : Result (Nat × SequenceEntry))
  | GetSequencePermissions (res : Result SequencePermissions)
  | GetSequenceUserPermissions (res : Result SequenceUserPermissions)
  | GetReplicaKeys (res : Result ReplicaPublicKeySet)
  | GetBalance (res : Result Money)
  | GetHistory (res : Result (List ReplicaEvent))
  | GetAccount (res : Result (List Nat × Signature))
  | ListAuthKeysAndVersion (res : Result (List (PublicKey × AppPermissions) × Nat))
deriving DecidableEq, Repr

/-- The logical content being transmitted. Source: `enum Message` with 8
variants, each carrying its own `MessageId`. -/
inductive Message where
  | Cmd (cmd : Cmd) (id : MessageId)
  | Query (query : Query) (id : MessageId)
  | Event (event : Event) (id : MessageId) (correlation_id : MessageId)
  | QueryResponse (response : QueryResponse) (id : MessageId)
      (correlation_id : MessageId) (query_origin : Address)
  | CmdError (error : CmdError) (id : MessageId)
      (correlation_id : MessageId) (cmd_origin : Address)
  | NetworkCmd (cmd : NetworkCmd) (id : MessageId)
  | NetworkCmdError (error : NetworkCmdError) (id : MessageId)
      (correlation_id : MessageId) (cmd_origin : Address)
  | NetworkEvent (event : NetworkEvent) (id : MessageId)
      (correlation_id : MessageId)
deriving DecidableEq, Repr

/-- Gets the message ID. Source: `Message::id`, a total projection over all
8 variants. -/
def Message.id : Message → MessageId
  | .Cmd _ id => id
  | .Query _ id => id
  | .Event _ id _ => id
  | .QueryResponse _ id _ _ => id
  | .CmdError _ id _ _ => id
  | .NetworkCmd _ id => id
  | .NetworkCmdError _ id _ _ => id
  | .NetworkEvent _ id _ => id

/-- One message in flight, with provenance. Source: `struct MsgEnvelope`. -/
structure MsgEnvelope where
  message : Message
  origin : MsgSender
  proxies : List MsgSender
deriving DecidableEq, Repr

/-- Gets the message ID. Source: `MsgEnvelope::id`. -/
def MsgEnvelope.id (env : MsgEnvelope) : MessageId := env.message.id

/-- Source: `MsgEnvelope::add_proxy`, `self.proxies.push(proxy)`; mutation is
embedded as explicit state passing, returning the updated envelope. -/
def MsgEnvelope.add_proxy (env : MsgEnvelope) (proxy : MsgSender) : MsgEnvelope :=
  { env with proxies := env.proxies ++ [proxy] }

/-- Source: `MsgEnvelope::most_recent_sender`, matching on `proxies.last()`. -/
def MsgEnvelope.most_recent_sender (env : MsgEnvelope) : MsgSender :=
  match env.proxies.getLast? with
  | none => env.origin
  | some proxy => proxy

/-- Source: `MsgEnvelope::destination`, the per-kind dispatch table. -/
def MsgEnvelope.destination (env : MsgEnvelope) : Address :=
  match env.message with
  | .Cmd cmd _ => .Section cmd.dst_address
  | .Query query _ => .Section query.dst_address
  | .Event event _ _ => .Client event.dst_address
  | .QueryResponse _ _ _ query_origin => query_origin
  | .CmdError _ _ _ cmd_origin => cmd_origin
  | .NetworkCmd cmd _ => cmd.dst_address
  | .NetworkEvent event _ _ => event.dst_address
  | .NetworkCmdError _ _ _ cmd_origin => cmd_origin

/-- Error type for an attempted conversion from `QueryResponse`.
Source: `enum TryFromError { WrongType, Response(Error) }`. -/
inductive TryFromError where
  | WrongType
  | Response (e : Error)
deriving DecidableEq, Repr

/-- Source: macro instantiation `try_from!(IData, GetBlob)`. -/
def IData.try_from : QueryResponse → Except TryFromError IData
  | .GetBlob (.ok data) => .ok data
  | .GetBlob (.error e) => .error (.Response e)
  | _ => .error .WrongType

/-- Source: macro instantiation `try_from!(Map, GetMap, GetMapShell)`. -/
def Map.try_from : QueryResponse → Except TryFromError Map
  | .GetMap (.ok data) => .ok data
  | .GetMap (.error e) => .error (.Response e)
  | .GetMapShell (.ok data) => .ok data
  | .GetMapShell (.error e) => .error (.Response e)
  | _ => .error .WrongType

/-- Source: macro instantiation `try_from!(u64, GetMapVersion)`. -/
def U64.try_from : QueryResponse → Except TryFromError Nat
  | .GetMapVersion (.ok data) => .ok data
  | .GetMapVersion (.error e) => .error (.Response e)
  | _ => .error .WrongType

/-- Source: macro instantiation `try_from!(MapEntries, ListMapEntries)`. -/
def MapEntries.try_from : QueryResponse → Except TryFromError MapEntries
  | .ListMapEntries (.ok data) => .ok data
  | .ListMapEntries (.error e) => .error (.Response e)
  | _ => .error .WrongType

/-- Source: macro instantiation `try_from!(BTreeSet<Vec<u8>>, ListMapKeys)`. -/
def MapKeySet.try_from : QueryResponse → Except TryFromError (List (List Nat))
  | .ListMapKeys (.ok data) => .ok data
  | .ListMapKeys (.error e) => .error (.Response e)
  | _ => .error .WrongType

/-- Source: macro instantiation `try_from!(MapValues, ListMapValues)`. -/
def MapValues.try_from : QueryResponse → Except TryFromError MapValues
  | .ListMapValues (.ok data) => .ok data
  | .ListMapValues (.error e) => .error (.Response e)
  | _ => .error .WrongType

/-- Source: macro instantiation
`try_from!(MapPermissionSet, ListMapUserPermissions)`. -/
def MapPermissionSet.try_from : QueryResponse → Except TryFromError MapPermissionSet
  | .ListMapUserPermissions (.ok data) => .ok data
  | .ListMapUserPermissions (.error e) => .error (.Response e)
  | _ => .error .WrongType

/-- Source: macro instantiation
`try_from!(BTreeMap<PublicKey, MapPermissionSet>, ListMapPermissions)`. -/
def MapPermissionsMap.try_from :
    QueryResponse → Except TryFromError (List (PublicKey × MapPermissionSet))
  | .ListMapPermissions (.ok data) => .ok data
  | .ListMapPermissions (.error e) => .error (.Response e)
  | _ => .error .WrongType

/-- Source: macro instantiation `try_from!(MapValue, GetMapValue)`. -/
def MapValue.try_from : QueryResponse → Except TryFromError MapValue
  | .GetMapValue (.ok data) => .ok data
  | .GetMapValue (.error e) => .error (.Response e)
  | _ => .error .WrongType

/-- Source: macro instantiation `try_from!(Sequence, GetSequence)`. -/
def Sequence.try_from : QueryResponse → Except TryFromError Sequence
  | .GetSequence (.ok data) => .ok data
  | .GetSequence (.error e) => .error (.Response e)
  | _ => .error .WrongType

/-- Source: macro instantiation `try_from!(SequenceOwner, GetSequenceOwner)`. -/
def SequenceOwner.try_from : QueryResponse → Except TryFromError SequenceOwner
  | .GetSequenceOwner (.ok data) => .ok data
  | .GetSequenceOwner (.error e) => .error (.Response e)
  | _ => .error .WrongType

/-- Source: macro instantiation `try_from!(SequenceEntries, GetSequenceRange)`. -/
def SequenceEntries.try_from : QueryResponse → Except TryFromError SequenceEntries
  | .GetSequenceRange (.ok data) => .ok data
  | .GetSequenceRange (.error e) => .error (.Response e)
  | _ => .error .WrongType

/-- Source: macro instantiation
`try_from!((u64, SequenceEntry), GetSequenceLastEntry)`. -/
def SequenceLastEntry.try_from :
    QueryResponse → Except TryFromError (Nat × SequenceEntry)
  | .GetSequenceLastEntry (.ok data) => .ok data
  | .GetSequenceLastEntry (.error e) => .error (.Response e)
  | _ => .error .WrongType

/-- Source: macro instantiation
`try_from!(SequencePermissions, GetSequencePermissions)`. -/
def SequencePermissions.try_from :
    QueryResponse → Except TryFromError SequencePermissions
  | .GetSequencePermissions (.ok data) => .ok data
  | .GetSequencePermissions (.error e) => .error (.Response e)
  | _ => .error .WrongType

/-- Source: macro instantiation
`try_from!(SequenceUserPermissions, GetSequenceUserPermissions)`. -/
def SequenceUserPermissions.try_from :
    QueryResponse → Except TryFromError SequenceUserPermissions
  | .GetSequenceUserPermissions (.ok data) => .ok data
  | .GetSequenceUserPermissions (.error e) => .error (.Response e)
  | _ => .error .WrongType

/-- Source: macro instantiation `try_from!(Money, GetBalance)`. -/
def Money.try_from : QueryResponse → Except TryFromError Money
  | .GetBalance (.ok data) => .ok data
  | .GetBalance (.error e) => .error (.Response e)
  | _ => .error .WrongType

/-- Source: macro instantiation `try_from!(ReplicaPublicKeySet, GetReplicaKeys)`. -/
def ReplicaPublicKeySet.try_from :
    QueryResponse → Except TryFromError ReplicaPublicKeySet
  | .GetReplicaKeys (.ok data) => .ok data
  | .GetReplicaKeys (.error e) => .error (.Response e)
  | _ => .error .WrongType

/-- Source: macro instantiation `try_from!(Vec<ReplicaEvent>, GetHistory)`. -/
def History.try_from : QueryResponse → Except TryFromError (List ReplicaEvent)
  | .GetHistory (.ok data) => .ok data
  | .GetHistory (.error e) => .error (.Response e)
  | _ => .error .WrongType

/-- Source: macro instantiation
`try_from!((BTreeMap<PublicKey, AppPermissions>, u64), ListAuthKeysAndVersion)`. -/
def AuthKeysAndVersion.try_from :
    QueryResponse → Except TryFromError (List (PublicKey × AppPermissions) × Nat)
  | .ListAuthKeysAndVersion (.ok data) => .ok data
  | .ListAuthKeysAndVersion (.error e) => .error (.Response e)
  | _ => .error .WrongType

/-- Source: macro instantiation `try_from!((Vec<u8>, Signature), GetAccount)`. -/
def Account.try_from : QueryResponse → Except TryFromError (List Nat × Signature)
  | .GetAccount (.ok data) => .ok data
  | .GetAccount (.error e) => .error (.Response e)
  | _ => .error .WrongType

/-- Modelled from the spec: the derived `Debug` rendering of `Error`
(errors.rs is not in the provided source); a unit variant prints its
bare variant name, as pinned by the in-source test expecting
`AccessDenied`. -/
def Error.debugStr : Error → String
  | .AccessDenied => "AccessDenied"
  | .Other code => "Other(" ++ toString code ++ ")"

/-- Modelled from the spec: `ErrorDebug` from errors.rs renders a
`Result`, suppressing the success payload behind the compact placeholder
`Success` and printing the inner error value for the error case. -/
def ErrorDebug {T : Type} : Result T → String
  | .ok _ => "Success"
  | .error e => e.debugStr

/-- Source: `impl fmt::Debug for QueryResponse`, writing
`QueryResponse::<Variant>(<ErrorDebug of the result>)` for every variant. -/
def QueryResponse.fmt : QueryResponse → String
  | .GetBlob res => "QueryResponse::GetBlob(" ++ ErrorDebug res ++ ")"
  | .GetMap res => "QueryResponse::GetMap(" ++ ErrorDebug res ++ ")"
  | .GetMapShell res => "QueryResponse::GetMapShell(" ++ ErrorDebug res ++ ")"
  | .GetMapVersion res => "QueryResponse::GetMapVersion(" ++ ErrorDebug res ++ ")"
  | .ListMapEntries res => "QueryResponse::ListMapEntries(" ++ ErrorDebug res ++ ")"
  | .ListMapKeys res => "QueryResponse::ListMapKeys(" ++ ErrorDebug res ++ ")"
  | .ListMapValues res => "QueryResponse::ListMapValues(" ++ ErrorDebug res ++ ")"
  | .ListMapPermissions res =>
      "QueryResponse::ListMapPermissions(" ++ ErrorDebug res ++ ")"
  | .ListMapUserPermissions res =>
      "QueryResponse::ListMapUserPermissions(" ++ ErrorDebug res ++ ")"
  | .GetMapValue res => "QueryResponse::GetMapValue(" ++ ErrorDebug res ++ ")"
  | .GetSequence res => "QueryResponse::GetSequence(" ++ ErrorDebug res ++ ")"
  | .GetSequenceRange res =>
      "QueryResponse::GetSequenceRange(" ++ ErrorDebug res ++ ")"
  | .GetSequenceLastEntry res =>
      "QueryResponse::GetSequenceLastEntry(" ++ ErrorDebug res ++ ")"
  | .GetSequencePermissions res =>
      "QueryResponse::GetSequencePermissions(" ++ ErrorDebug res ++ ")"
  | .GetSequenceUserPermissions res =>
      "QueryResponse::GetSequenceUserPermissions(" ++ ErrorDebug res ++ ")"
  | .GetSequenceOwner res =>
      "QueryResponse::GetSequenceOwner(" ++ ErrorDebug res ++ ")"
  | .GetReplicaKeys res => "QueryResponse::GetReplicaKeys(" ++ ErrorDebug res ++ ")"
  | .GetBalance res => "QueryResponse::GetBalance(" ++ ErrorDebug res ++ ")"
  | .GetHistory res => "QueryResponse::GetHistory(" ++ ErrorDebug res ++ ")"
  | .GetAccount res => "QueryResponse::GetAccount(" ++ ErrorDebug res ++ ")"
  | .ListAuthKeysAndVersion res =>
      "QueryResponse::ListAuthKeysAndVersion(" ++ ErrorDebug res ++ ")"

/-! Modelled from the spec: the serialization boundary contract (§6).
Envelopes cross process boundaries through a structure-preserving,
field-for-field, variant-tag-preserving format (a serde derive in the
source, whose generated code is not part of the provided source). It is
modelled here as a token stream of natural numbers: every variant is
encoded as its tag followed by its fields, every list as its length
followed by its elements. -/

/-- Decoder for a single token. -/
def decNat : List Nat → Option (Nat × List Nat)
  | [] => none
  | n :: r => some (n, r)

/-- Encoder for a length-prefixed list. -/
def encList {α : Type} (enc : α → List Nat) (xs : List α) : List Nat :=
  xs.length :: xs.foldr (fun a r => enc a ++ r) []

/-- Decoder for the elements of a length-prefixed list, by element count. -/
def decListAux {α : Type} (dec : List Nat → Option (α × List Nat)) :
    Nat → List Nat → Option (List α × List Nat)
  | 0, r => some ([], r)
  | n + 1, r =>
    match dec r with
    | none => none
    | some (a, r1) =>
      match decListAux dec n r1 with
      | none => none
      | some (as, r2) => some (a :: as, r2)

/-- Decoder for a length-prefixed list. -/
def decList {α : Type} (dec : List Nat → Option (α × List Nat)) :
    List Nat → Option (List α × List Nat)
  | [] => none
  | n :: r => decListAux dec n r

/-- Encoder for a pair: the two components in sequence. -/
def encProd {α β : Type} (ea : α → List Nat) (eb : β → List Nat)
    (p : α × β) : List Nat :=
  ea p.1 ++ eb p.2

/-- Decoder for a pair. -/
def decProd {α β : Type} (da : List Nat → Option (α × List Nat))
    (db : List Nat → Option (β × List Nat))
    (l : List Nat) : Option ((α × β) × List Nat) :=
  match da l with
  | none => none
  | some (a, r1) =>
    match db r1 with
    | none => none
    | some (b, r2) => some ((a, b), r2)

/-- A decoder inverts an encoder on every input, leaving trailing tokens. -/
def DecodesTo {α : Type} (enc : α → List Nat)
    (dec : List Nat → Option (α × List Nat)) : Prop :=
  ∀ x rest, dec (enc x ++ rest) = some (x, rest)

def encMessageId (m : MessageId) : List Nat := [m.name]

def decMessageId : List Nat → Option (MessageId × List Nat)
  | [] => none
  | n :: r => some (⟨n⟩, r)

def encAddress : Address → List Nat
  | .Client x => [0, x]
  | .Node x => [1, x]
  | .Section x => [2, x]

def decAddress : List Nat → Option (Address × List Nat)
  | 0 :: x :: r => some (.Client x, r)
  | 1 :: x :: r => some (.Node x, r)
  | 2 :: x :: r => some (.Section x, r)
  | _ => none

def encDuty : Duty → List Nat
  | .Adult => [0]
  | .Elder => [1]

def decDuty : List Nat → Option (Duty × List Nat)
  | 0 :: r => some (.Adult, r)
  | 1 :: r => some (.Elder, r)
  | _ => none

def encMsgSender : MsgSender → List Nat
  | .Client id sig => [0, id.key, sig.sig]
  | .Node id duty sig => 1 :: id.key :: encDuty duty ++ [sig.sig]
  | .Section id duty sig => 2 :: id.key :: encDuty duty ++ [sig.sig]

def decMsgSender : List Nat → Option (MsgSender × List Nat)
  | 0 :: k :: s :: r => some (.Client ⟨k⟩ ⟨s⟩, r)
  | 1 :: k :: r =>
    match decDuty r with
    | some (d, s :: r1) => some (.Node ⟨k⟩ d ⟨s⟩, r1)
    | _ => none
  | 2 :: k :: r =>
    match decDuty r with
    | some (d, s :: r1) => some (.Section ⟨k⟩ d ⟨s⟩, r1)
    | _ => none
  | _ => none

def encCmd (c : Cmd) : List Nat := [c.dst]

def decCmd : List Nat → Option (Cmd × List Nat)
  | [] => none
  | n :: r => some (⟨n⟩, r)

def encQuery (q : Query) : List Nat := [q.dst]

def decQuery : List Nat → Option (Query × List Nat)
  | [] => none
  | n :: r => some (⟨n⟩, r)

def encNetworkCmd (c : NetworkCmd) : List Nat := encAddress c.dst

def decNetworkCmd (l : List Nat) : Option (NetworkCmd × List Nat) :=
  match decAddress l with
  | none => none
  | some (a, r) => some (⟨a⟩, r)

def encNetworkEvent (e : NetworkEvent) : List Nat := encAddress e.dst

def decNetworkEvent (l : List Nat) : Option (NetworkEvent × List Nat) :=
  match decAddress l with
  | none => none
  | some (a, r) => some (⟨a⟩, r)

def encNetworkCmdError (e : NetworkCmdError) : List Nat := [e.code]

def decNetworkCmdError : List Nat → Option (NetworkCmdError × List Nat)
  | [] => none
  | n :: r => some (⟨n⟩, r)

def encEvent : Event → List Nat
  | .TransferValidated e => [0, e.fromKey.key]
  | .TransferDebitAgreementReached req => [1, req.fromKey.key]

def decEvent : List Nat → Option (Event × List Nat)
  | 0 :: k :: r => some (.TransferValidated ⟨⟨k⟩⟩, r)
  | 1 :: k :: r => some (.TransferDebitAgreementReached ⟨⟨k⟩⟩, r)
  | _ => none

def encError : Error → List Nat
  | .AccessDenied => [0]
  | .Other code => [1, code]

def decError : List Nat → Option (Error × List Nat)
  | 0 :: r => some (.AccessDenied, r)
  | 1 :: code :: r => some (.Other code, r)
  | _ => none

def encTransferError : TransferError → List Nat
  | .TransferValidation e => 0 :: encError e
  | .TransferRegistration e => 1 :: encError e
  | .TransferPropagation e => 2 :: encError e

def decTransferError : List Nat → Option (TransferError × List Nat)
  | 0 :: r =>
    match decError r with
    | some (e, r1) => some (.TransferValidation e, r1)
    | none => none
  | 1 :: r =>
    match decError r with
    | some (e, r1) => some (.TransferRegistration e, r1)
    | none => none
  | 2 :: r =>
    match decError r with
    | some (e, r1) => some (.TransferPropagation e, r1)
    | none => none
  | _ => none

def encCmdError : CmdError → List Nat
  | .Auth e => 0 :: encError e
  | .Data e => 1 :: encError e
  | .Transfer t => 2 :: encTransferError t

def decCmdError : List Nat → Option (CmdError × List Nat)
  | 0 :: r =>
    match decError r with
    | some (e, r1) => some (.Auth e, r1)
    | none => none
  | 1 :: r =>
    match decError r with
    | some (e, r1) => some (.Data e, r1)
    | none => none
  | 2 :: r =>
    match decTransferError r with
    | some (t, r1) => some (.Transfer t, r1)
    | none => none
  | _ => none

def encResult {α : Type} (enc : α → List Nat) : Result α → List Nat
  | .ok v => 0 :: enc v
  | .error e => 1 :: encError e

def decResult {α : Type} (dec : List Nat → Option (α × List Nat)) :
    List Nat → Option (Result α × List Nat)
  | 0 :: r =>
    match dec r with
    | some (v, r1) => some (.ok v, r1)
    | none => none
  | 1 :: r =>
    match decError r with
    | some (e, r1) => some (.error e, r1)
    | none => none
  | _ => none

def encNat1 (n : Nat) : List Nat := [n]

def encPublicKey (p : PublicKey) : List Nat := [p.key]

def decPublicKey : List Nat → Option (PublicKey × List Nat)
  | [] => none
  | n :: r => some (⟨n⟩, r)

def encSignature (s : Signature) : List Nat := [s.sig]

def decSignature : List Nat → Option (Signature × List Nat)
  | [] => none
  | n :: r => some (⟨n⟩, r)

def encIData (d : IData) : List Nat := [d.val]

def decIData : List Nat → Option (IData × List Nat)
  | [] => none
  | n :: r => some (⟨n⟩, r)

def encMap (d : Map) : List Nat := [d.val]

def decMap : List Nat → Option (Map × List Nat)
  | [] => none
  | n :: r => some (⟨n⟩, r)

def encMapEntries (d : MapEntries) : List Nat := [d.val]

def decMapEntries : List Nat → Option (MapEntries × List Nat)
  | [] => none
  | n :: r => some (⟨n⟩, r)

def encMapValue (d : MapValue) : List Nat := [d.val]

def decMapValue : List Nat → Option (MapValue × List Nat)
  | [] => none
  | n :: r => some (⟨n⟩, r)

def encMapValues (d : MapValues) : List Nat := [d.val]

def decMapValues : List Nat → Option (MapValues × List Nat)
  | [] => none
  | n :: r => some (⟨n⟩, r)

def encMapPermissionSet (d : MapPermissionSet) : List Nat := [d.val]

def decMapPermissionSet : List Nat → Option (MapPermissionSet × List Nat)
  | [] => none
  | n :: r => some (⟨n⟩, r)

def encSequence (d : Sequence) : List Nat := [d.val]

def decSequence : List Nat → Option (Sequence × List Nat)
  | [] => none
  | n :: r => some (⟨n⟩, r)

def encSequenceOwner (d : SequenceOwner) : List Nat := [d.val]

def decSequenceOwner : List Nat → Option (SequenceOwner × List Nat)
  | [] => none
  | n :: r => some (⟨n⟩, r)

def encSequenceEntry (d : SequenceEntry) : List Nat := [d.val]

def decSequenceEntry : List Nat → Option (SequenceEntry × List Nat)
  | [] => none
  | n :: r => some (⟨n⟩, r)

def encSequenceEntries (d : SequenceEntries) : List Nat := [d.val]

def decSequenceEntries : List Nat → Option (SequenceEntries × List Nat)
  | [] => none
  | n :: r => some (⟨n⟩, r)

def encSequencePermissions (d : SequencePermissions) : List Nat := [d.val]

def decSequencePermissions : List Nat → Option (SequencePermissions × List Nat)
  | [] => none
  | n :: r => some (⟨n⟩, r)

def encSequenceUserPermissions (d : SequenceUserPermissions) : List Nat := [d.val]

def decSequenceUserPermissions :
    List Nat → Option (SequenceUserPermissions × List Nat)
  | [] => none
  | n :: r => some (⟨n⟩, r)

def encReplicaPublicKeySet (d : ReplicaPublicKeySet) : List Nat := [d.val]

def decReplicaPublicKeySet : List Nat → Option (ReplicaPublicKeySet × List Nat)
  | [] => none
  | n :: r => some (⟨n⟩, r)

def encMoney (d : Money) : List Nat := [d.val]

def decMoney : List Nat → Option (Money × List Nat)
  | [] => none
  | n :: r => some (⟨n⟩, r)

def encReplicaEvent (d : ReplicaEvent) : List Nat := [d.val]

def decReplicaEvent : List Nat → Option (ReplicaEvent × List Nat)
  | [] => none
  | n :: r => some (⟨n⟩, r)

def encAppPermissions (d : AppPermissions) : List Nat := [d.val]

def decAppPermissions : List Nat → Option (AppPermissions × List Nat)
  | [] => none
  | n :: r => some (⟨n⟩, r)

def encQueryResponse : QueryResponse → List Nat
  | .GetBlob res => 0 :: encResult encIData res
  | .GetMap res => 1 :: encResult encMap res
  | .GetMapShell res => 2 :: encResult encMap res
  | .GetMapVersion res => 3 :: encResult encNat1 res
  | .ListMapEntries res => 4 :: encResult encMapEntries res
  | .ListMapKeys res => 5 :: encResult (encList (encList encNat1)) res
  | .ListMapValues res => 6 :: encResult encMapValues res
  | .ListMapUserPermissions res => 7 :: encResult encMapPermissionSet res
  | .ListMapPermissions res =>
      8 :: encResult (encList (encProd encPublicKey encMapPermissionSet)) res
  | .GetMapValue res => 9 :: encResult encMapValue res
  | .GetSequence res => 10 :: encResult encSequence res
  | .GetSequenceOwner res => 11 :: encResult encSequenceOwner res
  | .GetSequenceRange res => 12 :: encResult encSequenceEntries res
  | .GetSequenceLastEntry res => 13 :: encResult (encProd encNat1 encSequenceEntry) res
  | .GetSequencePermissions res => 14 :: encResult encSequencePermissions res
  | .GetSequenceUserPermissions res =>
      15 :: encResult encSequenceUserPermissions res
  | .GetReplicaKeys res => 16 :: encResult encReplicaPublicKeySet res
  | .GetBalance res => 17 :: encResult encMoney res
  | .GetHistory res => 18 :: encResult (encList encReplicaEvent) res
  | .GetAccount res => 19 :: encResult (encProd (encList encNat1) encSignature) res
  | .ListAuthKeysAndVersion res =>
      20 :: encResult
        (encProd (encList (encProd encPublicKey encAppPermissions)) encNat1) res

def decQueryResponse : List Nat → Option (QueryResponse × List Nat)
  | 0 :: r =>
    match decResult decIData r with
    | some (res, r1) => some (.GetBlob res, r1)
    | none => none
  | 1 :: r =>
    match decResult decMap r with
    | some (res, r1) => some (.GetMap res, r1)
    | none => none
  | 2 :: r =>
    match decResult decMap r with
    | some (res, r1) => some (.GetMapShell res, r1)
    | none => none
  | 3 :: r =>
    match decResult decNat r with
    | some (res, r1) => some (.GetMapVersion res, r1)
    | none => none
  | 4 :: r =>
    match decResult decMapEntries r with
    | some (res, r1) => some (.ListMapEntries res, r1)
    | none => none
  | 5 :: r =>
    match decResult (decList (decList decNat)) r with
    | some (res, r1) => some (.ListMapKeys res, r1)
    | none => none
  | 6 :: r =>
    match decResult decMapValues r with
    | some (res, r1) => some (.ListMapValues res, r1)
    | none => none
  | 7 :: r =>
    match decResult decMapPermissionSet r with
    | some (res, r1) => some (.ListMapUserPermissions res, r1)
    | none => none
  | 8 :: r =>
    match decResult (decList (decProd decPublicKey decMapPermissionSet)) r with
    | some (res, r1) => some (.ListMapPermissions res, r1)
    | none => none
  | 9 :: r =>
    match decResult decMapValue r with
    | some (res, r1) => some (.GetMapValue res, r1)
    | none => none
  | 10 :: r =>
    match decResult decSequence r with
    | some (res, r1) => some (.GetSequence res, r1)
    | none => none
  | 11 :: r =>
    match decResult decSequenceOwner r with
    | some (res, r1) => some (.GetSequenceOwner res, r1)
    | none => none
  | 12 :: r =>
    match decResult decSequenceEntries r with
    | some (res, r1) => some (.GetSequenceRange res, r1)
    | none => none
  | 13 :: r =>
    match decResult (decProd decNat decSequenceEntry) r with
    | some (res, r1) => some (.GetSequenceLastEntry res, r1)
    | none => none
  | 14 :: r =>
    match decResult decSequencePermissions r with
    | some (res, r1) => some (.GetSequencePermissions res, r1)
    | none => none
  | 15 :: r =>
    match decResult decSequenceUserPermissions r with
    | some (res, r1) => some (.GetSequenceUserPermissions res, r1)
    | none => none
  | 16 :: r =>
    match decResult decReplicaPublicKeySet r with
    | some (res, r1) => some (.GetReplicaKeys res, r1)
    | none => none
  | 17 :: r =>
    match decResult decMoney r with
    | some (res, r1) => some (.GetBalance res, r1)
    | none => none
  | 18 :: r =>
    match decResult (decList decReplicaEvent) r with
    | some (res, r1) => some (.GetHistory res, r1)
    | none => none
  | 19 :: r =>
    match decResult (decProd (decList decNat) decSignature) r with
    | some (res, r1) => some (.GetAccount res, r1)
    | none => none
  | 20 :: r =>
    match decResult (decProd (decList (decProd decPublicKey decAppPermissions)) decNat) r with
    | some (res, r1) => some (.ListAuthKeysAndVersion res, r1)
    | none => none
  | _ => none

def encMessage : Message → List Nat
  | .Cmd cmd id => 0 :: encCmd cmd ++ encMessageId id
  | .Query query id => 1 :: encQuery query ++ encMessageId id
  | .Event event id cid => 2 :: encEvent event ++ encMessageId id ++ encMessageId cid
  | .QueryResponse resp id cid qo =>
      3 :: encQueryResponse resp ++ encMessageId id ++ encMessageId cid ++ encAddress qo
  | .CmdError err id cid co =>
      4 :: encCmdError err ++ encMessageId id ++ encMessageId cid ++ encAddress co
  | .NetworkCmd cmd id => 5 :: encNetworkCmd cmd ++ encMessageId id
  | .NetworkCmdError err id cid co =>
      6 :: encNetworkCmdError err ++ encMessageId id ++ encMessageId cid ++ encAddress co
  | .NetworkEvent event id cid =>
      7 :: encNetworkEvent event ++ encMessageId id ++ encMessageId cid

def decMessage : List Nat → Option (Message × List Nat)
  | 0 :: r =>
    match decCmd r with
    | some (c, r1) =>
      match decMessageId r1 with
      | some (i, r2) => some (.Cmd c i, r2)
      | none => none
    | none => none
  | 1 :: r =>
    match decQuery r with
    | some (q, r1) =>
      match decMessageId r1 with
      | some (i, r2) => some (.Query q i, r2)
      | none => none
    | none => none
  | 2 :: r =>
    match decEvent r with
    | some (e, r1) =>
      match decMessageId r1 with
      | some (i, r2) =>
        match decMessageId r2 with
        | some (ci, r3) => some (.Event e i ci, r3)
        | none => none
      | none => none
    | none => none
  | 3 :: r =>
    match decQueryResponse r with
    | some (resp, r1) =>
      match decMessageId r1 with
      | some (i, r2) =>
        match decMessageId r2 with
        | some (ci, r3) =>
          match decAddress r3 with
          | some (qo, r4) => some (.QueryResponse resp i ci qo, r4)
          | none => none
        | none => none
      | none => none
    | none => none
  | 4 :: r =>
    match decCmdError r with
    | some (err, r1) =>
      match decMessageId r1 with
      | some (i, r2) =>
        match decMessageId r2 with
        | some (ci, r3) =>
          match decAddress r3 with
          | some (co, r4) => some (.CmdError err i ci co, r4)
          | none => none
        | none => none
      | none => none
    | none => none
  | 5 :: r =>
    match decNetworkCmd r with
    | some (c, r1) =>
      match decMessageId r1 with
      | some (i, r2) => some (.NetworkCmd c i, r2)
      | none => none
    | none => none
  | 6 :: r =>
    match decNetworkCmdError r with
    | some (err, r1) =>
      match decMessageId r1 with
      | some (i, r2) =>
        match decMessageId r2 with
        | some (ci, r3) =>
          match decAddress r3 with
          | some (co, r4) => some (.NetworkCmdError err i ci co, r4)
          | none => none
        | none => none
      | none => none
    | none => none
  | 7 :: r =>
    match decNetworkEvent r with
    | some (e, r1) =>
      match decMessageId r1 with
      | some (i, r2) =>
        match decMessageId r2 with
        | some (ci, r3) => some (.NetworkEvent e i ci, r3)
        | none => none
      | none => none
    | none => none
  | _ => none

def encMsgEnvelope (env : MsgEnvelope) : List Nat :=
  encMessage env.message ++ encMsgSender env.origin ++ encList encMsgSender env.proxies

def decMsgEnvelope (l : List Nat) : Option (MsgEnvelope × List Nat) :=
  match decMessage l with
  | some (m, r1) =>
    match decMsgSender r1 with
    | some (o, r2) =>
      match decList decMsgSender r2 with
      | some (ps, r3) => some (⟨m, o, ps⟩, r3)
      | none => none
    | none => none
  | none => none

/-- Modelled from the spec: serialization of an envelope for the wire. -/
def MsgEnvelope.serialize (env : MsgEnvelope) : List Nat :=
  encMsgEnvelope env

/-- Modelled from the spec: deserialization of an envelope from the wire;
fails on trailing garbage or malformed input. -/
def MsgEnvelope.deserialize (l : List Nat) : Option MsgEnvelope :=
  match decMsgEnvelope l with
  | some (env, []) => some env
  | _ => none

/-- The three extraction laws of §4.3 for an extraction rule bound to a
single `QueryResponse` variant: success passes the payload through, a
wrapped failure becomes a `Response` failure carrying the error exactly,
and every other variant becomes a `WrongType` failure. -/
def ExtractionLaws {T : Type} (ex : QueryResponse → Except TryFromError T)
    (mk : Result T → QueryResponse) : Prop :=
  (∀ v, ex (mk (.ok v)) = .ok v) ∧
  (∀ e, ex (mk (.error e)) = .error (.Response e)) ∧
  (∀ r, (∀ res, r ≠ mk res) → ex r = .error (.WrongType))

/-- The extraction laws for a rule bound to two `QueryResponse` variants
(the `Map` payload type is produced by both `GetMap` and `GetMapShell`). -/
def ExtractionLaws2 {T : Type} (ex : QueryResponse → Except TryFromError T)
    (mk1 mk2 : Result T → QueryResponse) : Prop :=
  (∀ v, ex (mk1 (.ok v)) = .ok v) ∧
  (∀ e, ex (mk1 (.error e)) = .error (.Response e)) ∧
  (∀ v, ex (mk2 (.ok v)) = .ok v) ∧
  (∀ e, ex (mk2 (.error e)) = .error (.Response e)) ∧
  (∀ r, (∀ res, r ≠ mk1 res ∧ r ≠ mk2 res) → ex r = .error (.WrongType))

/-- A concrete message, used to instantiate universally quantified
theorems at closed inputs. -/
def exMessage : Message := .Cmd ⟨3⟩ ⟨7⟩

/-- A concrete client sender. -/
def exSenderA : MsgSender := .Client ⟨1⟩ ⟨10⟩

/-- A concrete node sender. -/
def exSenderB : MsgSender := .Node ⟨2⟩ .Adult ⟨20⟩

/-- A concrete section sender. -/
def exSenderC : MsgSender := .Section ⟨3⟩ .Elder ⟨30⟩

/-! Round-trip lemmas: every decoder inverts its encoder, leaving the
trailing tokens untouched. -/

theorem dec_enc_nat : ∀ (n : Nat) rest, decNat (encNat1 n ++ rest) = some (n, rest) :=
  fun _ _ => rfl

theorem dec_enc_messageId :
    ∀ (x : MessageId) rest, decMessageId (encMessageId x ++ rest) = some (x, rest) :=
  fun _ _ => rfl

theorem dec_enc_address :
    ∀ (a : Address) rest, decAddress (encAddress a ++ rest) = some (a, rest) := by
  intro a rest
  cases a <;> rfl

theorem dec_enc_duty :
    ∀ (d : Duty) rest, decDuty (encDuty d ++ rest) = some (d, rest) := by
  intro d rest
  cases d <;> rfl

theorem dec_enc_msgSender :
    ∀ (s : MsgSender) rest, decMsgSender (encMsgSender s ++ rest) = some (s, rest) := by
  intro s rest
  cases s with
  | Client id sig => rfl
  | Node id duty sig => cases duty <;> rfl
  | Section id duty sig => cases duty <;> rfl

theorem dec_enc_cmd : ∀ (c : Cmd) rest, decCmd (encCmd c ++ rest) = some (c, rest) :=
  fun _ _ => rfl

theorem dec_enc_query :
    ∀ (q : Query) rest, decQuery (encQuery q ++ rest) = some (q, rest) :=
  fun _ _ => rfl

theorem dec_enc_networkCmd :
    ∀ (c : NetworkCmd) rest, decNetworkCmd (encNetworkCmd c ++ rest) = some (c, rest) := by
  intro c rest
  cases c with
  | mk a => cases a <;> rfl

theorem dec_enc_networkEvent :
    ∀ (e : NetworkEvent) rest,
      decNetworkEvent (encNetworkEvent e ++ rest) = some (e, rest) := by
  intro e rest
  cases e with
  | mk a => cases a <;> rfl

theorem dec_enc_networkCmdError :
    ∀ (e : NetworkCmdError) rest,
      decNetworkCmdError (encNetworkCmdError e ++ rest) = some (e, rest) :=
  fun _ _ => rfl

theorem dec_enc_event :
    ∀ (e : Event) rest, decEvent (encEvent e ++ rest) = some (e, rest) := by
  intro e rest
  cases e <;> rfl

theorem dec_enc_error :
    ∀ (e : Error) rest, decError (encError e ++ rest) = some (e, rest) := by
  intro e rest
  cases e <;> rfl

theorem dec_enc_transferError :
    ∀ (t : TransferError) rest,
      decTransferError (encTransferError t ++ rest) = some (t, rest) := by
  intro t rest
  cases t <;> simp [encTransferError, decTransferError, dec_enc_error]

theorem dec_enc_cmdError :
    ∀ (c : CmdError) rest, decCmdError (encCmdError c ++ rest) = some (c, rest) := by
  intro c rest
  cases c <;> simp [encCmdError, decCmdError, dec_enc_error, dec_enc_transferError]

theorem dec_enc_publicKey :
    ∀ (p : PublicKey) rest, decPublicKey (encPublicKey p ++ rest) = some (p, rest) :=
  fun _ _ => rfl

theorem dec_enc_signature :
    ∀ (s : Signature) rest, decSignature (encSignature s ++ rest) = some (s, rest) :=
  fun _ _ => rfl

theorem dec_enc_iData :
    ∀ (d : IData) rest, decIData (encIData d ++ rest) = some (d, rest) :=
  fun _ _ => rfl

theorem dec_enc_map : ∀ (d : Map) rest, decMap (encMap d ++ rest) = some (d, rest) :=
  fun _ _ => rfl

theorem dec_enc_mapEntries :
    ∀ (d : MapEntries) rest, decMapEntries (encMapEntries d ++ rest) = some (d, rest) :=
  fun _ _ => rfl

theorem dec_enc_mapValue :
    ∀ (d : MapValue) rest, decMapValue (encMapValue d ++ rest) = some (d, rest) :=
  fun _ _ => rfl

theorem dec_enc_mapValues :
    ∀ (d : MapValues) rest, decMapValues (encMapValues d ++ rest) = some (d, rest) :=
  fun _ _ => rfl

theorem dec_enc_mapPermissionSet :
    ∀ (d : MapPermissionSet) rest,
      decMapPermissionSet (encMapPermissionSet d ++ rest) = some (d, rest) :=
  fun _ _ => rfl

theorem dec_enc_sequence :
    ∀ (d : Sequence) rest, decSequence (encSequence d ++ rest) = some (d, rest) :=
  fun _ _ => rfl

theorem dec_enc_sequenceOwner :
    ∀ (d : SequenceOwner) rest,
      decSequenceOwner (encSequenceOwner d ++ rest) = some (d, rest) :=
  fun _ _ => rfl

theorem dec_enc_sequenceEntry :
    ∀ (d : SequenceEntry) rest,
      decSequenceEntry (encSequenceEntry d ++ rest) = some (d, rest) :=
  fun _ _ => rfl

theorem dec_enc_sequenceEntries :
    ∀ (d : SequenceEntries) rest,
      decSequenceEntries (encSequenceEntries d ++ rest) = some (d, rest) :=
  fun _ _ => rfl

theorem dec_enc_sequencePermissions :
    ∀ (d : SequencePermissions) rest,
      decSequencePermissions (encSequencePermissions d ++ rest) = some (d, rest) :=
  fun _ _ => rfl

theorem dec_enc_sequenceUserPermissions :
    ∀ (d : SequenceUserPermissions) rest,
      decSequenceUserPermissions (encSequenceUserPermissions d ++ rest) = some (d, rest) :=
  fun _ _ => rfl

theorem dec_enc_replicaPublicKeySet :
    ∀ (d : ReplicaPublicKeySet) rest,
      decReplicaPublicKeySet (encReplicaPublicKeySet d ++ rest) = some (d, rest) :=
  fun _ _ => rfl

theorem dec_enc_money :
    ∀ (d : Money) rest, decMoney (encMoney d ++ rest) = some (d, rest) :=
  fun _ _ => rfl

theorem dec_enc_replicaEvent :
    ∀ (d : ReplicaEvent) rest,
      decReplicaEvent (encReplicaEvent d ++ rest) = some (d, rest) :=
  fun _ _ => rfl

theorem dec_enc_appPermissions :
    ∀ (d : AppPermissions) rest,
      decAppPermissions (encAppPermissions d ++ rest) = some (d, rest) :=
  fun _ _ => rfl

theorem dec_enc_list {α : Type} {enc : α → List Nat}
    {dec : List Nat → Option (α × List Nat)}
    (h : ∀ x rest, dec (enc x ++ rest) = some (x, rest)) :
    ∀ (xs : List α) rest, decList dec (encList enc xs ++ rest) = some (xs, rest) := by
  have aux : ∀ (xs : List α) rest,
      decListAux dec xs.length
        (List.foldr (fun a r => enc a ++ r) [] xs ++ rest) = some (xs, rest) := by
    intro xs
    induction xs with
    | nil => intro rest; simp [decListAux]
    | cons a as ih => intro rest; simp [decListAux, List.append_assoc, h, ih]
  intro xs rest
  simpa [encList, decList] using aux xs rest

theorem dec_enc_prod {α β : Type} {ea : α → List Nat} {eb : β → List Nat}
    {da : List Nat → Option (α × List Nat)} {db : List Nat → Option (β × List Nat)}
    (ha : ∀ x rest, da (ea x ++ rest) = some (x, rest))
    (hb : ∀ x rest, db (eb x ++ rest) = some (x, rest)) :
    ∀ (p : α × β) rest, decProd da db (encProd ea eb p ++ rest) = some (p, rest) := by
  intro p rest
  cases p with
  | mk a b => simp [encProd, decProd, List.append_assoc, ha, hb]

theorem dec_enc_result {α : Type} {enc : α → List Nat}
    {dec : List Nat → Option (α × List Nat)}
    (h : ∀ x rest, dec (enc x ++ rest) = some (x, rest)) :
    ∀ (res : Result α) rest,
      decResult dec (encResult enc res ++ rest) = some (res, rest) := by
  intro res rest
  cases res with
  | ok v => simp [encResult, decResult, h]
  | error e => simp [encResult, decResult, dec_enc_error]

set_option maxHeartbeats 2000000 in
theorem dec_enc_queryResponse :
    ∀ (q : QueryResponse) rest,
      decQueryResponse (encQueryResponse q ++ rest) = some (q, rest) := by
  intro q rest
  cases q <;>
    simp [encQueryResponse, decQueryResponse,
      dec_enc_result dec_enc_iData,
      dec_enc_result dec_enc_map,
      dec_enc_result dec_enc_nat,
      dec_enc_result dec_enc_mapEntries,
      dec_enc_result (dec_enc_list (dec_enc_list dec_enc_nat)),
      dec_enc_result dec_enc_mapValues,
      dec_enc_result dec_enc_mapPermissionSet,
      dec_enc_result (dec_enc_list (dec_enc_prod dec_enc_publicKey dec_enc_mapPermissionSet)),
      dec_enc_result dec_enc_mapValue,
      dec_enc_result dec_enc_sequence,
      dec_enc_result dec_enc_sequenceOwner,
      dec_enc_result dec_enc_sequenceEntries,
      dec_enc_result (dec_enc_prod dec_enc_nat dec_enc_sequenceEntry),
      dec_enc_result dec_enc_sequencePermissions,
      dec_enc_result dec_enc_sequenceUserPermissions,
      dec_enc_result dec_enc_replicaPublicKeySet,
      dec_enc_result dec_enc_money,
      dec_enc_result (dec_enc_list dec_enc_replicaEvent),
      dec_enc_result (dec_enc_prod (dec_enc_list dec_enc_nat) dec_enc_signature),
      dec_enc_result (dec_enc_prod
        (dec_enc_list (dec_enc_prod dec_enc_publicKey dec_enc_appPermissions)) dec_enc_nat)]

theorem dec_enc_message :
    ∀ (m : Message) rest, decMessage (encMessage m ++ rest) = some (m, rest) := by
  intro m rest
  cases m <;>
    simp [encMessage, decMessage, List.append_assoc, dec_enc_cmd, dec_enc_query,
      dec_enc_event, dec_enc_queryResponse, dec_enc_cmdError, dec_enc_messageId,
      dec_enc_address, dec_enc_networkCmd, dec_enc_networkCmdError,
      dec_enc_networkEvent]

theorem dec_enc_msgEnvelope :
    ∀ (env : MsgEnvelope) rest,
      decMsgEnvelope (encMsgEnvelope env ++ rest) = some (env, rest) := by
  intro env rest
  cases env with
  | mk m o ps =>
    simp [encMsgEnvelope, decMsgEnvelope, List.append_assoc, dec_enc_message,
      dec_enc_msgSender, dec_enc_list dec_enc_msgSender]

theorem getLast?_append_single {α : Type} (l : List α) (a : α) :
    (l ++ [a]).getLast? = some a := by
  rw [List.getLast?_append_cons]
  rfl

theorem foldl_add_proxy_spec :
    ∀ (ps : List MsgSender) (env : MsgEnvelope),
      (ps.foldl MsgEnvelope.add_proxy env).proxies = env.proxies ++ ps ∧
      (ps.foldl MsgEnvelope.add_proxy env).origin = env.origin := by
  intro ps
  induction ps with
  | nil => intro env; simp
  | cons a as ih =>
    intro env
    constructor
    · rw [List.foldl_cons, (ih (env.add_proxy a)).1]
      simp [MsgEnvelope.add_proxy]
    · rw [List.foldl_cons, (ih (env.add_proxy a)).2]
      rfl

/-- C1: for every envelope whose message is a QueryResponse, `destination()`
returns exactly the `query_origin` address carried in the message; for a
CmdError or NetworkCmdError it returns exactly the `cmd_origin` address;
in particular a QueryResponse with `query_origin = Address::Client(N)`
yields `destination() = Address::Client(N)`. -/
theorem claim_C1 :
    (∀ (origin : MsgSender) (proxies : List MsgSender) (resp : QueryResponse)
        (i ci : MessageId) (qo : Address),
        MsgEnvelope.destination ⟨.QueryResponse resp i ci qo, origin, proxies⟩ = qo) ∧
    (∀ (origin : MsgSender) (proxies : List MsgSender) (err : CmdError)
        (i ci : MessageId) (co : Address),
        MsgEnvelope.destination ⟨.CmdError err i ci co, origin, proxies⟩ = co) ∧
    (∀ (origin : MsgSender) (proxies : List MsgSender) (err : NetworkCmdError)
        (i ci : MessageId) (co : Address),
        MsgEnvelope.destination ⟨.NetworkCmdError err i ci co, origin, proxies⟩ = co) ∧
    (∀ (origin : MsgSender) (proxies : List MsgSender) (resp : QueryResponse)
        (i ci : MessageId) (n : XorName),
        MsgEnvelope.destination ⟨.QueryResponse resp i ci (.Client n), origin, proxies⟩ =
          .Client n) := by
  refine ⟨?_, ?_, ?_, ?_⟩ <;> intros <;> rfl

/-- C2: `destination()` resolves by message kind: a Cmd yields a
Section-tagged address from the cmd's own target-resolution rule, a Query a
Section-tagged address from the query's rule, an Event a Client-tagged
address from the event's subject, and a NetworkCmd or NetworkEvent the
address computed by its own target-resolution rule. -/
theorem claim_C2 :
    (∀ (origin : MsgSender) (proxies : List MsgSender) (cmd : Cmd) (i : MessageId),
        MsgEnvelope.destination ⟨.Cmd cmd i, origin, proxies⟩ =
          .Section cmd.dst_address) ∧
    (∀ (origin : MsgSender) (proxies : List MsgSender) (query : Query) (i : MessageId),
        MsgEnvelope.destination ⟨.Query query i, origin, proxies⟩ =
          .Section query.dst_address) ∧
    (∀ (origin : MsgSender) (proxies : List MsgSender) (event : Event)
        (i ci : MessageId),
        MsgEnvelope.destination ⟨.Event event i ci, origin, proxies⟩ =
          .Client event.dst_address) ∧
    (∀ (origin : MsgSender) (proxies : List MsgSender) (cmd : NetworkCmd)
        (i : MessageId),
        MsgEnvelope.destination ⟨.NetworkCmd cmd i, origin, proxies⟩ =
          cmd.dst_address) ∧
    (∀ (origin : MsgSender) (proxies : List MsgSender) (event : NetworkEvent)
        (i ci : MessageId),
        MsgEnvelope.destination ⟨.NetworkEvent event i ci, origin, proxies⟩ =
          event.dst_address) := by
  refine ⟨?_, ?_, ?_, ?_, ?_⟩ <;> intros <;> rfl

/-- C4: `most_recent_sender()` returns `origin` when `proxies` is empty and
the last appended proxy otherwise, for any sequence of `add_proxy` calls;
appending proxy A then proxy B makes it return B, not A. -/
theorem claim_C4 :
    (∀ env : MsgEnvelope, env.proxies = [] → env.most_recent_sender = env.origin) ∧
    (∀ (env : MsgEnvelope) (ps : List MsgSender) (p : MsgSender),
        env.proxies = ps ++ [p] → env.most_recent_sender = p) ∧
    (∀ (env : MsgEnvelope) (ps : List MsgSender) (p : MsgSender),
        ((ps ++ [p]).foldl MsgEnvelope.add_proxy env).most_recent_sender = p) ∧
    (∀ (env : MsgEnvelope) (A B : MsgSender),
        ((env.add_proxy A).add_proxy B).most_recent_sender = B) := by
  refine ⟨?_, ?_, ?_, ?_⟩
  · intro env h
    simp [MsgEnvelope.most_recent_sender, h]
  · intro env ps p h
    simp [MsgEnvelope.most_recent_sender, h, getLast?_append_single]
  · intro env ps p
    simp [MsgEnvelope.most_recent_sender, MsgEnvelope.add_proxy,
      getLast?_append_single]
  · intro env A B
    simp [MsgEnvelope.most_recent_sender, MsgEnvelope.add_proxy,
      getLast?_append_single]

/-- C4 witness: on a concrete envelope with no proxies the most recent
sender is the origin, and with proxies `[B, C]` it is `C`. -/
theorem claim_C4_witness :
    MsgEnvelope.most_recent_sender ⟨exMessage, exSenderA, []⟩ = exSenderA ∧
    MsgEnvelope.most_recent_sender ⟨exMessage, exSenderA, [exSenderB, exSenderC]⟩ =
      exSenderC :=
  ⟨claim_C4.1 ⟨exMessage, exSenderA, []⟩ rfl,
   claim_C4.2.1 ⟨exMessage, exSenderA, [exSenderB, exSenderC]⟩ [exSenderB] exSenderC rfl⟩

/-- C5: `Message::id()` is total over all 8 variants and returns exactly the
MessageId stored at construction, independent of every other field;
`MsgEnvelope::id()` returns the wrapped message's identifier. -/
theorem claim_C5 :
    (∀ (cmd : Cmd) (i : MessageId), (Message.Cmd cmd i).id = i) ∧
    (∀ (query : Query) (i : MessageId), (Message.Query query i).id = i) ∧
    (∀ (event : Event) (i ci : MessageId), (Message.Event event i ci).id = i) ∧
    (∀ (resp : QueryResponse) (i ci : MessageId) (qo : Address),
        (Message.QueryResponse resp i ci qo).id = i) ∧
    (∀ (err : CmdError) (i ci : MessageId) (co : Address),
        (Message.CmdError err i ci co).id = i) ∧
    (∀ (cmd : NetworkCmd) (i : MessageId), (Message.NetworkCmd cmd i).id = i) ∧
    (∀ (err : NetworkCmdError) (i ci : MessageId) (co : Address),
        (Message.NetworkCmdError err i ci co).id = i) ∧
    (∀ (event : NetworkEvent) (i ci : MessageId),
        (Message.NetworkEvent event i ci).id = i) ∧
    (∀ (m : Message) (origin : MsgSender) (proxies : List MsgSender),
        MsgEnvelope.id ⟨m, origin, proxies⟩ = m.id) := by
  refine ⟨?_, ?_, ?_, ?_, ?_, ?_, ?_, ?_, ?_⟩ <;> intros <;> rfl

/-- C6: `add_proxy` appends the proxy at the end of `proxies`, preserving
the previously recorded proxies in order, increases the length by exactly
one, and leaves `message` and `origin` unchanged. -/
theorem claim_C6 :
    ∀ (env : MsgEnvelope) (p : MsgSender),
      (env.add_proxy p).proxies = env.proxies ++ [p] ∧
      (env.add_proxy p).proxies.length = env.proxies.length + 1 ∧
      (env.add_proxy p).message = env.message ∧
      (env.add_proxy p).origin = env.origin := by
  intro env p
  refine ⟨rfl, ?_, rfl, rfl⟩
  simp [MsgEnvelope.add_proxy]

set_option maxHeartbeats 2000000 in
/-- C3: every payload type's extraction rule satisfies the extraction laws:
the bound variant wrapping `Ok(v)` extracts to `v`, the bound variant
wrapping `Err(e)` extracts to the `Response` failure carrying `e` exactly,
and every other variant extracts to the `WrongType` failure. -/
theorem claim_C3 :
    ExtractionLaws IData.try_from QueryResponse.GetBlob ∧
    ExtractionLaws2 Map.try_from QueryResponse.GetMap QueryResponse.GetMapShell ∧
    ExtractionLaws U64.try_from QueryResponse.GetMapVersion ∧
    ExtractionLaws MapEntries.try_from QueryResponse.ListMapEntries ∧
    ExtractionLaws MapKeySet.try_from QueryResponse.ListMapKeys ∧
    ExtractionLaws MapValues.try_from QueryResponse.ListMapValues ∧
    ExtractionLaws MapPermissionSet.try_from QueryResponse.ListMapUserPermissions ∧
    ExtractionLaws MapPermissionsMap.try_from QueryResponse.ListMapPermissions ∧
    ExtractionLaws MapValue.try_from QueryResponse.GetMapValue ∧
    ExtractionLaws Sequence.try_from QueryResponse.GetSequence ∧
    ExtractionLaws SequenceOwner.try_from QueryResponse.GetSequenceOwner ∧
    ExtractionLaws SequenceEntries.try_from QueryResponse.GetSequenceRange ∧
    ExtractionLaws SequenceLastEntry.try_from QueryResponse.GetSequenceLastEntry ∧
    ExtractionLaws SequencePermissions.try_from QueryResponse.GetSequencePermissions ∧
    ExtractionLaws SequenceUserPermissions.try_from
      QueryResponse.GetSequenceUserPermissions ∧
    ExtractionLaws Money.try_from QueryResponse.GetBalance ∧
    ExtractionLaws ReplicaPublicKeySet.try_from QueryResponse.GetReplicaKeys ∧
    ExtractionLaws History.try_from QueryResponse.GetHistory ∧
    ExtractionLaws AuthKeysAndVersion.try_from QueryResponse.ListAuthKeysAndVersion ∧
    ExtractionLaws Account.try_from QueryResponse.GetAccount := by
  unfold ExtractionLaws ExtractionLaws2
  repeat' apply And.intro
  all_goals first
    | exact fun v => rfl
    | (intro r h
       cases r <;>
         first
           | exact absurd rfl (h _)
           | exact absurd rfl (h _).1
           | exact absurd rfl (h _).2
           | rfl)

/-- C3 witness: concrete instances of the three laws, at the Blob and
Money payload types. -/
theorem claim_C3_witness :
    IData.try_from (.GetBlob (.ok ⟨5⟩)) = .ok (⟨5⟩ : IData) ∧
    Money.try_from (.GetBalance (.error .AccessDenied)) =
      .error (.Response .AccessDenied) ∧
    Money.try_from (.GetBlob (.error .AccessDenied)) = .error .WrongType := by
  refine ⟨claim_C3.1.1 ⟨5⟩, ?_, ?_⟩
  · exact (claim_C3.2.2.2.2.2.2.2.2.2.2.2.2.2.2.2.1).2.1 Error.AccessDenied
  · exact (claim_C3.2.2.2.2.2.2.2.2.2.2.2.2.2.2.2.1).2.2
      (.GetBlob (.error .AccessDenied)) (fun res h => QueryResponse.noConfusion h)

/-- C7: extraction rules are bound to exactly the legitimate variant(s):
both GetMap and GetMapShell narrow to the Map payload type, and extracting a
`GetBalance(Err(AccessDenied))` response to the balance payload type yields
a `Response(AccessDenied)` failure, not a `WrongType` failure. -/
theorem claim_C7 :
    (∀ m : Map, Map.try_from (.GetMap (.ok m)) = .ok m) ∧
    (∀ m : Map, Map.try_from (.GetMapShell (.ok m)) = .ok m) ∧
    (∀ e : Error, Map.try_from (.GetMap (.error e)) = .error (.Response e)) ∧
    (∀ e : Error, Map.try_from (.GetMapShell (.error e)) = .error (.Response e)) ∧
    Money.try_from (.GetBalance (.error .AccessDenied)) =
      .error (.Response .AccessDenied) ∧
    Money.try_from (.GetBalance (.error .AccessDenied)) ≠ .error .WrongType := by
  refine ⟨fun m => rfl, fun m => rfl, fun e => rfl, fun e => rfl, rfl, ?_⟩
  decide

/-- C8: the debug rendering of a QueryResponse prints the variant name and,
when the wrapped result is an error, the inner error value, for every one of
the 21 variants; every success payload is suppressed behind the compact
placeholder; concretely `GetBalance(Err(AccessDenied))` renders with the
variant name and the literal tag `AccessDenied`. -/
theorem claim_C8 :
    QueryResponse.fmt (.GetBalance (.error .AccessDenied)) =
      "QueryResponse::GetBalance(AccessDenied)" ∧
    QueryResponse.fmt (.GetSequence (.error .AccessDenied)) =
      "QueryResponse::GetSequence(AccessDenied)" ∧
    (∀ e : Error, QueryResponse.fmt (.GetBlob (.error e)) =
      "QueryResponse::GetBlob(" ++ e.debugStr ++ ")") ∧
    (∀ v : IData, QueryResponse.fmt (.GetBlob (.ok v)) =
      "QueryResponse::GetBlob(Success)") ∧
    (∀ e : Error, QueryResponse.fmt (.GetMap (.error e)) =
      "QueryResponse::GetMap(" ++ e.debugStr ++ ")") ∧
    (∀ v : Map, QueryResponse.fmt (.GetMap (.ok v)) =
      "QueryResponse::GetMap(Success)") ∧
    (∀ e : Error, QueryResponse.fmt (.GetMapShell (.error e)) =
      "QueryResponse::GetMapShell(" ++ e.debugStr ++ ")") ∧
    (∀ v : Map, QueryResponse.fmt (.GetMapShell (.ok v)) =
      "QueryResponse::GetMapShell(Success)") ∧
    (∀ e : Error, QueryResponse.fmt (.GetMapVersion (.error e)) =
      "QueryResponse::GetMapVersion(" ++ e.debugStr ++ ")") ∧
    (∀ v : Nat, QueryResponse.fmt (.GetMapVersion (.ok v)) =
      "QueryResponse::GetMapVersion(Success)") ∧
    (∀ e : Error, QueryResponse.fmt (.ListMapEntries (.error e)) =
      "QueryResponse::ListMapEntries(" ++ e.debugStr ++ ")") ∧
    (∀ v : MapEntries, QueryResponse.fmt (.ListMapEntries (.ok v)) =
      "QueryResponse::ListMapEntries(Success)") ∧
    (∀ e : Error, QueryResponse.fmt (.ListMapKeys (.error e)) =
      "QueryResponse::ListMapKeys(" ++ e.debugStr ++ ")") ∧
    (∀ v : List (List Nat), QueryResponse.fmt (.ListMapKeys (.ok v)) =
      "QueryResponse::ListMapKeys(Success)") ∧
    (∀ e : Error, QueryResponse.fmt (.ListMapValues (.error e)) =
      "QueryResponse::ListMapValues(" ++ e.debugStr ++ ")") ∧
    (∀ v : MapValues, QueryResponse.fmt (.ListMapValues (.ok v)) =
      "QueryResponse::ListMapValues(Success)") ∧
    (∀ e : Error, QueryResponse.fmt (.ListMapUserPermissions (.error e)) =
      "QueryResponse::ListMapUserPermissions(" ++ e.debugStr ++ ")") ∧
    (∀ v : MapPermissionSet, QueryResponse.fmt (.ListMapUserPermissions (.ok v)) =
      "QueryResponse::ListMapUserPermissions(Success)") ∧
    (∀ e : Error, QueryResponse.fmt (.ListMapPermissions (.error e)) =
      "QueryResponse::ListMapPermissions(" ++ e.debugStr ++ ")") ∧
    (∀ v : List (PublicKey × MapPermissionSet),
      QueryResponse.fmt (.ListMapPermissions (.ok v)) =
        "QueryResponse::ListMapPermissions(Success)") ∧
    (∀ e : Error, QueryResponse.fmt (.GetMapValue (.error e)) =
      "QueryResponse::GetMapValue(" ++ e.debugStr ++ ")") ∧
    (∀ v : MapValue, QueryResponse.fmt (.GetMapValue (.ok v)) =
      "QueryResponse::GetMapValue(Success)") ∧
    (∀ e : Error, QueryResponse.fmt (.GetSequence (.error e)) =
      "QueryResponse::GetSequence(" ++ e.debugStr ++ ")") ∧
    (∀ v : Sequence, QueryResponse.fmt (.GetSequence (.ok v)) =
      "QueryResponse::GetSequence(Success)") ∧
    (∀ e : Error, QueryResponse.fmt (.GetSequenceOwner (.error e)) =
      "QueryResponse::GetSequenceOwner(" ++ e.debugStr ++ ")") ∧
    (∀ v : SequenceOwner, QueryResponse.fmt (.GetSequenceOwner (.ok v)) =
      "QueryResponse::GetSequenceOwner(Success)") ∧
    (∀ e : Error, QueryResponse.fmt (.GetSequenceRange (.error e)) =
      "QueryResponse::GetSequenceRange(" ++ e.debugStr ++ ")") ∧
    (∀ v : SequenceEntries, QueryResponse.fmt (.GetSequenceRange (.ok v)) =
      "QueryResponse::GetSequenceRange(Success)") ∧
    (∀ e : Error, QueryResponse.fmt (.GetSequenceLastEntry (.error e)) =
      "QueryResponse::GetSequenceLastEntry(" ++ e.debugStr ++ ")") ∧
    (∀ v : Nat × SequenceEntry, QueryResponse.fmt (.GetSequenceLastEntry (.ok v)) =
      "QueryResponse::GetSequenceLastEntry(Success)") ∧
    (∀ e : Error, QueryResponse.fmt (.GetSequencePermissions (.error e)) =
      "QueryResponse::GetSequencePermissions(" ++ e.debugStr ++ ")") ∧
    (∀ v : SequencePermissions, QueryResponse.fmt (.GetSequencePermissions (.ok v)) =
      "QueryResponse::GetSequencePermissions(Success)") ∧
    (∀ e : Error, QueryResponse.fmt (.GetSequenceUserPermissions (.error e)) =
      "QueryResponse::GetSequenceUserPermissions(" ++ e.debugStr ++ ")") ∧
    (∀ v : SequenceUserPermissions,
      QueryResponse.fmt (.GetSequenceUserPermissions (.ok v)) =
        "QueryResponse::GetSequenceUserPermissions(Success)") ∧
    (∀ e : Error, QueryResponse.fmt (.GetReplicaKeys (.error e)) =
      "QueryResponse::GetReplicaKeys(" ++ e.debugStr ++ ")") ∧
    (∀ v : ReplicaPublicKeySet, QueryResponse.fmt (.GetReplicaKeys (.ok v)) =
      "QueryResponse::GetReplicaKeys(Success)") ∧
    (∀ e : Error, QueryResponse.fmt (.GetBalance (.error e)) =
      "QueryResponse::GetBalance(" ++ e.debugStr ++ ")") ∧
    (∀ v : Money, QueryResponse.fmt (.GetBalance (.ok v)) =
      "QueryResponse::GetBalance(Success)") ∧
    (∀ e : Error, QueryResponse.fmt (.GetHistory (.error e)) =
      "QueryResponse::GetHistory(" ++ e.debugStr ++ ")") ∧
    (∀ v : List ReplicaEvent, QueryResponse.fmt (.GetHistory (.ok v)) =
      "QueryResponse::GetHistory(Success)") ∧
    (∀ e : Error, QueryResponse.fmt (.GetAccount (.error e)) =
      "QueryResponse::GetAccount(" ++ e.debugStr ++ ")") ∧
    (∀ v : List Nat × Signature, QueryResponse.fmt (.GetAccount (.ok v)) =
      "QueryResponse::GetAccount(Success)") ∧
    (∀ e : Error, QueryResponse.fmt (.ListAuthKeysAndVersion (.error e)) =
      "QueryResponse::ListAuthKeysAndVersion(" ++ e.debugStr ++ ")") ∧
    (∀ v : List (PublicKey × AppPermissions) × Nat,
      QueryResponse.fmt (.ListAuthKeysAndVersion (.ok v)) =
        "QueryResponse::ListAuthKeysAndVersion(Success)") := by
  repeat' apply And.intro
  all_goals first | rfl | exact fun x => rfl

/-- C9: serializing and then deserializing any envelope yields the original
value, including the order of the nested proxies sequence. -/
theorem claim_C9 :
    ∀ env : MsgEnvelope, MsgEnvelope.deserialize env.serialize = some env := by
  intro env
  have h := dec_enc_msgEnvelope env []
  rw [List.append_nil] at h
  simp [MsgEnvelope.serialize, MsgEnvelope.deserialize, h]

/-- C10: `destination()` performs no validation of the address tag on
pass-through: a QueryResponse, CmdError or NetworkCmdError carrying a
Node- or Section-tagged origin address has that address returned
unchanged. -/
theorem claim_C10 :
    (∀ (origin : MsgSender) (proxies : List MsgSender) (resp : QueryResponse)
        (i ci : MessageId) (n : XorName),
        MsgEnvelope.destination ⟨.QueryResponse resp i ci (.Node n), origin, proxies⟩ =
          .Node n) ∧
    (∀ (origin : MsgSender) (proxies : List MsgSender) (resp : QueryResponse)
        (i ci : MessageId) (n : XorName),
        MsgEnvelope.destination ⟨.QueryResponse resp i ci (.Section n), origin, proxies⟩ =
          .Section n) ∧
    (∀ (origin : MsgSender) (proxies : List MsgSender) (err : CmdError)
        (i ci : MessageId) (n : XorName),
        MsgEnvelope.destination ⟨.CmdError err i ci (.Node n), origin, proxies⟩ =
          .Node n) ∧
    (∀ (origin : MsgSender) (proxies : List MsgSender) (err : CmdError)
        (i ci : MessageId) (n : XorName),
        MsgEnvelope.destination ⟨.CmdError err i ci (.Section n), origin, proxies⟩ =
          .Section n) ∧
    (∀ (origin : MsgSender) (proxies : List MsgSender) (err : NetworkCmdError)
        (i ci : MessageId) (n : XorName),
        MsgEnvelope.destination ⟨.NetworkCmdError err i ci (.Node n), origin, proxies⟩ =
          .Node n) ∧
    (∀ (origin : MsgSender) (proxies : List MsgSender) (err : NetworkCmdError)
        (i ci : MessageId) (n : XorName),
        MsgEnvelope.destination ⟨.NetworkCmdError err i ci (.Section n), origin, proxies⟩ =
          .Section n) := by
  refine ⟨?_, ?_, ?_, ?_, ?_, ?_⟩ <;> intros <;> rfl

end SnMessaging
